import Mathlib

/-!
Verification development for the guide-loading core of the Telegram bot
(`bot.py`) and the phone-number normalizer (`phone.py`).

The Python code is shallowly embedded: strings are Lean `String`s,
Python `dict`s (which are insertion-ordered) become association lists,
provider calls become an oracle `Provider` consumed by an explicit retry
loop, and global mutable state becomes a `BotState` record threaded
through the model.  Python's `str.strip`/`str.lower` are modelled on the
underlying character lists (restricted to ASCII whitespace/letters,
which is all the analysed code paths exercise).
-/

namespace Bot

/-- ASCII whitespace set of Python `str.strip()` (the code never feeds it
non-ASCII whitespace). -/
def isPyWS (c : Char) : Bool :=
  c == ' ' || c == '\t' || c == '\n' || c == '\r' || c == '\x0b' || c == '\x0c'

/-- Python `str.strip()` on a character list: drop whitespace from both ends. -/
def stripChars (l : List Char) : List Char :=
  ((l.dropWhile isPyWS).reverse.dropWhile isPyWS).reverse

/-- Python `s.strip()`. -/
def pyStrip (s : String) : String := String.mk (stripChars s.data)

/-- Python `s.lower()` (ASCII case folding, as used on header cells). -/
def lowerStr (s : String) : String := String.mk (s.data.map Char.toLower)

/-- `sanitize_text(text, sanitize=False)` from bot.py: `text.strip()[:100]`.
`load_guides` only ever calls the `sanitize=False` branch. -/
def sanitize_text (s : String) : String := String.mk ((stripChars s.data).take 100)

/-- Fallback text used when a row's third column strips to empty
(bot.py line 307). -/
def defaultText : String := "Текст не найден в Google Sheets."

/-- The three parsed structures built by the loop in `load_guides`
(bot.py lines 298-312): ordered top-level labels, parent → children
association list, label → body-text association list. -/
structure Guides where
  main_buttons : List String
  submenus : List (String × List String)
  texts : List (String × String)
deriving DecidableEq, Repr

/-- Python `dict` assignment `d[k] = v`: replace in place if the key
exists (keeping its position), else append. -/
def setAssoc (l : List (String × String)) (k v : String) : List (String × String) :=
  match l with
  | [] => [(k, v)]
  | (k', v') :: rest =>
    if k' = k then (k, v) :: rest else (k', v') :: setAssoc rest k v

/-- Python `d.setdefault(k, []).append(v)` on the submenu dict. -/
def appendChild (l : List (String × List String)) (k v : String) :
    List (String × List String) :=
  match l with
  | [] => [(k, [v])]
  | (k', vs) :: rest =>
    if k' = k then (k', vs ++ [v]) :: rest else (k', vs) :: appendChild rest k v

/-- One iteration of the row loop in `load_guides` (bot.py lines 302-312):
rows with fewer than 3 cells are skipped; otherwise the text map is
updated unconditionally and the button is appended either to the
top-level list (empty parent) or to its parent's child list. -/
def processRow (g : Guides) (row : List String) : Guides :=
  if row.length < 3 then g
  else
    let parent := sanitize_text (row.getD 0 "")
    let button := sanitize_text (row.getD 1 "")
    let t := pyStrip (row.getD 2 "")
    let text := if t = "" then defaultText else t
    let texts' := setAssoc g.texts button text
    if parent = "" then
      { g with main_buttons := g.main_buttons ++ [button], texts := texts' }
    else
      { g with submenus := appendChild g.submenus parent button, texts := texts' }

/-- Header-stripping condition of bot.py line 295:
`len(values[0]) < 3 or values[0][1].lower() == "button"`. -/
def headerCond (row : List String) : Bool :=
  row.length < 3 || lowerStr (row.getD 1 "") == "button"

/-- `values = values[1:]` when the header condition holds. -/
def stripHeader (values : List (List String)) : List (List String) :=
  match values with
  | [] => []
  | v0 :: rest => if headerCond v0 then rest else v0 :: rest

/-- The row loop, folded from an accumulator. -/
def parseRows (g : Guides) (rows : List (List String)) : Guides :=
  rows.foldl processRow g

/-- The whole parsing phase of `load_guides` (bot.py lines 295-312): strip
the header if present, then fold the rows starting from the freshly reset
empty structures (lines 298-300). -/
def parseValues (values : List (List String)) : Guides :=
  parseRows ⟨[], [], []⟩ (stripHeader values)

/-- Errors a provider call can raise, matching the `except` dispatch in
`load_guides`: `HttpError` with a status code; the classified-transient
transport errors (`ssl.SSLError`, "EOF occurred", "Broken pipe"); and any
other unexpected exception. -/
inductive PErr where
  | http (status : Nat)
  | transient
  | unexpected
deriving DecidableEq, Repr

/-- Result of one provider call. -/
inductive PRes (α : Type) where
  | ok (a : α)
  | err (e : PErr)
deriving DecidableEq, Repr

/-- The Google Sheets/Drive provider as an oracle: the result of the n-th
metadata (`modifiedTime`) call and of the n-th row-fetch call.  The
metadata payload is optional, mirroring `file_metadata.get("modifiedTime")`. -/
structure Provider where
  version : Nat → PRes (Option String)
  rows : Nat → PRes (List (List String))

/-- The tuple stored in the TTL cache at bot.py line 317:
`(main_buttons, submenus, texts, main_menu)`.  The keyboard `main_menu`
is modelled by its ordered button labels. -/
structure GuidesTuple where
  main_buttons : List String
  submenus : List (String × List String)
  texts : List (String × String)
  main_menu : Option (List String)
deriving DecidableEq, Repr

/-- The module-level mutable state touched by `load_guides`
(bot.py lines 106-111). -/
structure BotState where
  main_buttons : List String
  submenus : List (String × List String)
  texts : List (String × String)
  main_menu : Option (List String)
  last_modified_time : Option String
  cacheGuides : Option GuidesTuple
deriving DecidableEq, Repr

/-- The state at process start: everything empty (bot.py lines 106-111,
628). -/
def initState : BotState := ⟨[], [], [], none, none, none⟩

/-- The served tree as a reader (`get_current`-style access) sees it. -/
def treeOf (st : BotState) : GuidesTuple :=
  ⟨st.main_buttons, st.submenus, st.texts, st.main_menu⟩

/-- The cache entry, when present, holds exactly the currently served
tree.  This invariant holds whenever a previous load succeeded, since the
cache is written from the globals right after they are set. -/
def cacheConsistent (st : BotState) : Prop :=
  st.cacheGuides = some (treeOf st)

/-- Which exit path a `load_guides` run took.  The Python function always
returns `None`; the exit path is the observable outcome. -/
inductive Outcome where
  | cachedHit
  | notInitialized
  | unchanged
  | noData
  | updated
  | failed
deriving DecidableEq, Repr

/-- Observable provider traffic of one run: number of metadata calls,
number of row-fetch calls, and the sleep durations in deciseconds
(`delay` starts at 1.0 s = 10 and is capped at 10.0 s = 100). -/
structure RunLog where
  versionCalls : Nat
  rowCalls : Nat
  sleeps : List Nat
deriving DecidableEq, Repr

/-- Result of a whole `load_guides` run. -/
structure LoadResult where
  state : BotState
  outcome : Outcome
  log : RunLog
deriving DecidableEq, Repr

/-- The fallback executed when retries are exhausted on a non-429 HTTP
error or an unexpected error (bot.py lines 328-334 and 343-349): restore
the four globals from the cache if present, else only `main_menu = None`. -/
def restoreFromCache (st : BotState) : BotState :=
  match st.cacheGuides with
  | some g =>
    { st with main_buttons := g.main_buttons, submenus := g.submenus,
              texts := g.texts, main_menu := g.main_menu }
  | none => { st with main_menu := none }

/-- Outcome of a single loop iteration: either the function returns, or
the loop proceeds to the next attempt with an updated backoff delay. -/
inductive StepRes where
  | done (st : BotState) (out : Outcome) (log : RunLog)
  | retry (delay : Nat) (st : BotState) (log : RunLog)
deriving Repr

/-- The `except` clauses of the retry loop (bot.py lines 321-351).
`isLast` is `attempt == max_retries`.  A 429 sleeps `max(5.0, delay)` and
backs off; other HTTP errors retry immediately (no sleep) and restore the
cache on the last attempt; transient transport errors sleep and back off
(also on the last attempt, after which the loop simply ends); unexpected
errors restore on the last attempt and otherwise sleep and back off. -/
def errStep (isLast : Bool) (delay : Nat) (st : BotState) (log : RunLog)
    (e : PErr) : StepRes :=
  match e with
  | .http status =>
    if status = 429 then
      .retry (min (delay * 2) 100) st { log with sleeps := log.sleeps ++ [max 50 delay] }
    else if isLast then
      .done (restoreFromCache st) .failed log
    else
      .retry delay st log
  | .transient =>
    .retry (min (delay * 2) 100) st { log with sleeps := log.sleeps ++ [delay] }
  | .unexpected =>
    if isLast then
      .done (restoreFromCache st) .failed log
    else
      .retry (min (delay * 2) 100) st { log with sleeps := log.sleeps ++ [delay] }

/-- The state after a successful parse (bot.py lines 298-317): the three
structures are replaced by the parse of `values`, the keyboard is rebuilt
from the top-level buttons, and the cache entry is set to the new tuple. -/
def updatedState (st : BotState) (values : List (List String)) : BotState :=
  { st with
    main_buttons := (parseValues values).main_buttons,
    submenus := (parseValues values).submenus,
    texts := (parseValues values).texts,
    main_menu := some (parseValues values).main_buttons,
    cacheGuides := some ⟨(parseValues values).main_buttons,
      (parseValues values).submenus, (parseValues values).texts,
      some (parseValues values).main_buttons⟩ }

/-- The row fetch and parse of one attempt (bot.py lines 288-319): fetch
rows; on empty values return with only a warning logged; otherwise strip
the header, rebuild the three structures, build the keyboard from the
top-level buttons, and store everything in the cache. -/
def fetchAndParse (p : Provider) (isLast : Bool) (delay : Nat) (st : BotState)
    (log : RunLog) : StepRes :=
  let r := p.rows log.rowCalls
  let log1 := { log with rowCalls := log.rowCalls + 1 }
  match r with
  | .err e => errStep isLast delay st log1 e
  | .ok values =>
    if values = [] then .done st .noData log1
    else .done (updatedState st values) .updated log1

/-- One attempt of the retry loop (bot.py lines 280-319).  Without
`force`, the cheap metadata call runs first; if the cached token is set
and equals the provider's current token the function returns at line 285,
otherwise the token is overwritten at line 286 *before* the row fetch. -/
def oneAttempt (p : Provider) (force : Bool) (isLast : Bool) (delay : Nat)
    (st : BotState) (log : RunLog) : StepRes :=
  if force then fetchAndParse p isLast delay st log
  else
    let v := p.version log.versionCalls
    let log1 := { log with versionCalls := log.versionCalls + 1 }
    match v with
    | .err e => errStep isLast delay st log1 e
    | .ok tok =>
      if st.last_modified_time ≠ none ∧ st.last_modified_time = tok then
        .done st .unchanged log1
      else
        fetchAndParse p isLast delay { st with last_modified_time := tok } log1

/-- The `for attempt in range(1, max_retries + 1)` loop.  `fuel` counts
the remaining attempts; falling off the end of the loop (all attempts
consumed by retryable errors) returns with the globals untouched, which
we record as `failed`. -/
def attemptLoop (p : Provider) (force : Bool) :
    Nat → Nat → BotState → RunLog → LoadResult
  | 0, _, st, log => ⟨st, .failed, log⟩
  | fuel + 1, delay, st, log =>
    match oneAttempt p force (fuel == 0) delay st log with
    | .done st' out log' => ⟨st', out, log'⟩
    | .retry delay' st' log' => attemptLoop p force fuel delay' st' log'

/-- `load_guides(force)` (bot.py lines 262-351).  `cacheFresh` says
whether the TTL cache entry (300 s) has not expired; `servicesOk` whether
the Google service objects are initialized.  `max_retries = 4`, initial
`delay = 1.0` s = 10 deciseconds. -/
def load_guides (p : Provider) (force : Bool) (cacheFresh : Bool)
    (servicesOk : Bool) (st : BotState) : LoadResult :=
  if cacheFresh ∧ force = false ∧ st.cacheGuides ≠ none then
    ⟨restoreFromCache st, .cachedHit, ⟨0, 0, []⟩⟩
  else if servicesOk = false then
    ⟨st, .notInitialized, ⟨0, 0, []⟩⟩
  else
    attemptLoop p force 4 10 st ⟨0, 0, []⟩

/-- Total number of button slots held by the tree structures (top-level
plus all submenu children); each well-formed row adds exactly one. -/
def guideSize (g : Guides) : Nat :=
  g.main_buttons.length + (g.submenus.map (fun kv => kv.2.length)).sum

/-- A state in which a previous refresh succeeded: tree `["A"]` with text
`x`, version token `t0`, and a cache entry matching the served tree. -/
def stLoaded : BotState :=
  ⟨["A"], [], [("A", "x")], some ["A"], some "t0",
   some ⟨["A"], [], [("A", "x")], some ["A"]⟩⟩

/-- Provider whose every call fails with a classified-transient error. -/
def pTransient : Provider := ⟨fun _ => .err .transient, fun _ => .err .transient⟩

/-- Provider whose first metadata call succeeds with a fresh token `t1`
and whose every other call fails transiently. -/
def pC1 : Provider :=
  ⟨fun n => if n = 0 then .ok (some "t1") else .err .transient,
   fun _ => .err .transient⟩

/-- Provider whose every call fails with HTTP 403 (an authorization
failure). -/
def p403 : Provider := ⟨fun _ => .err (.http 403), fun _ => .err (.http 403)⟩

/-- Provider whose current version token equals `stLoaded`'s cached
token. -/
def pSame : Provider := ⟨fun _ => .ok (some "t0"), fun _ => .err .unexpected⟩

/-- Provider returning an empty row range. -/
def pEmptyRows : Provider := ⟨fun _ => .ok (some "v1"), fun _ => .ok []⟩

/-- Provider returning one fixed data row. -/
def pRowsA : Provider := ⟨fun _ => .ok (some "v1"), fun _ => .ok [["", "A", "x"]]⟩

end Bot

namespace Phone

/-- `normalize_number` from phone.py (lines 25-41) on the character list:
strip surrounding whitespace; empty → empty; a leading `+` is kept and
all non-digits after it removed (just `+` if no digit remains);
otherwise keep digits only. -/
def normChars (l : List Char) : List Char :=
  match Bot.stripChars l with
  | [] => []
  | c :: rest =>
    if c = '+' then
      if rest.filter Char.isDigit = [] then ['+'] else '+' :: rest.filter Char.isDigit
    else (c :: rest).filter Char.isDigit

/-- `normalize_number(user_input)` from phone.py. -/
def normalize_number (user_input : String) : String :=
  String.mk (normChars user_input.data)

end Phone

/-! ## Helper lemmas -/

namespace Bot

theorem ws_not_digit (c : Char) (h : isPyWS c = true) : c.isDigit = false := by
  simp only [isPyWS, Bool.or_eq_true, beq_iff_eq] at h
  rcases h with ((((h | h) | h) | h) | h) | h <;> subst h <;> decide

theorem digit_not_ws (c : Char) (h : c.isDigit = true) : isPyWS c = false := by
  cases hw : isPyWS c
  · rfl
  · rw [ws_not_digit c hw] at h
    exact absurd h (by simp)

theorem dropWhile_of_all_false {p : Char → Bool} {l : List Char}
    (h : ∀ c ∈ l, p c = false) : l.dropWhile p = l := by
  cases l with
  | nil => rfl
  | cons a as => simp [List.dropWhile_cons, h a (by simp)]

theorem stripChars_of_all_false {l : List Char} (h : ∀ c ∈ l, isPyWS c = false) :
    stripChars l = l := by
  unfold stripChars
  rw [dropWhile_of_all_false h,
      dropWhile_of_all_false (fun c hc => h c (List.mem_reverse.mp hc)),
      List.reverse_reverse]

end Bot

namespace Phone

theorem normChars_digits (ds : List Char) (h : ∀ c ∈ ds, c.isDigit = true) :
    normChars ds = ds := by
  have hnw : ∀ c ∈ ds, Bot.isPyWS c = false := fun c hc => Bot.digit_not_ws c (h c hc)
  unfold normChars
  rw [Bot.stripChars_of_all_false hnw]
  cases ds with
  | nil => rfl
  | cons d rest =>
    have hd : d.isDigit = true := h d (by simp)
    have hdp : ¬ d = '+' := by
      intro he
      rw [he] at hd
      exact absurd hd (by decide)
    simp only [if_neg hdp]
    exact List.filter_eq_self.mpr fun a ha => h a ha

theorem normChars_plus_digits (ds : List Char) (h : ∀ c ∈ ds, c.isDigit = true) :
    normChars ('+' :: ds) = '+' :: ds := by
  have hnw : ∀ c ∈ '+' :: ds, Bot.isPyWS c = false := by
    intro c hc
    rcases List.mem_cons.mp hc with h1 | h1
    · subst h1; decide
    · exact Bot.digit_not_ws c (h c h1)
  have hfd : ds.filter Char.isDigit = ds := List.filter_eq_self.mpr fun a ha => h a ha
  unfold normChars
  rw [Bot.stripChars_of_all_false hnw]
  simp only [if_pos rfl, hfd]
  cases ds with
  | nil => rfl
  | cons d rest => simp

theorem normChars_cases (l : List Char) :
    (∃ ds, (∀ c ∈ ds, c.isDigit = true) ∧ normChars l = '+' :: ds) ∨
    (∀ c ∈ normChars l, c.isDigit = true) := by
  unfold normChars
  cases hs : Bot.stripChars l with
  | nil => right; intro c hc; simp at hc
  | cons c rest =>
    by_cases hp : c = '+'
    · subst hp
      simp only [if_pos rfl]
      by_cases hd : rest.filter Char.isDigit = []
      · left
        exact ⟨[], by simp, by simp [hd]⟩
      · left
        exact ⟨rest.filter Char.isDigit, fun a ha => List.of_mem_filter ha, by simp [hd]⟩
    · right
      simp only [if_neg hp]
      intro a ha
      exact List.of_mem_filter ha

theorem normChars_idem (l : List Char) : normChars (normChars l) = normChars l := by
  rcases normChars_cases l with ⟨ds, hds, he⟩ | hall
  · rw [he, normChars_plus_digits ds hds]
  · rw [normChars_digits _ hall]

end Phone

namespace Phone

/-- Claim C10: `normalize_number` is idempotent
(`normalize_number(normalize_number(s)) == normalize_number(s)`), and its
result is always either empty, the single character `+`, a `+` followed
by digits, or digits only. -/
theorem spec_C10 (s : String) :
    normalize_number (normalize_number s) = normalize_number s ∧
    ((normalize_number s).data = [] ∨ (normalize_number s).data = ['+'] ∨
      (∃ ds, ds ≠ [] ∧ (∀ c ∈ ds, c.isDigit = true) ∧
        (normalize_number s).data = '+' :: ds) ∨
      ((normalize_number s).data ≠ [] ∧
        ∀ c ∈ (normalize_number s).data, c.isDigit = true)) := by
  constructor
  · show String.mk (normChars (String.mk (normChars s.data)).data) =
      String.mk (normChars s.data)
    exact congrArg String.mk (normChars_idem s.data)
  · have hd : (normalize_number s).data = normChars s.data := rfl
    rw [hd]
    rcases normChars_cases s.data with ⟨ds, hds, he⟩ | hall
    · rcases ds with _ | ⟨d, rest⟩
      · right; left; rw [he]
      · right; right; left
        exact ⟨d :: rest, by simp, hds, he⟩
    · by_cases hnil : normChars s.data = []
      · left; exact hnil
      · right; right; right
        exact ⟨hnil, hall⟩

end Phone

namespace Bot

/-- Claim C2, counterexample: with rows `("", "A", "t1")` then
`("", "A", "t2")`, the code appends the duplicate label (bot.py line 310
has no dedup check), so the top-level sequence is `["A", "A"]` and does
not contain the label exactly once. -/
theorem spec_C2_counterexample :
    (parseValues [["", "A", "t1"], ["", "A", "t2"]]).main_buttons = ["A", "A"] ∧
    ¬ (parseValues [["", "A", "t1"], ["", "A", "t2"]]).main_buttons.count "A" = 1 := by
  decide

/-- Claim C2, amended: for two empty-parent rows with the same label, the
top-level sequence holds the label once per row (duplicates retained, not
first-write-wins), while the text map is last-write-wins: `texts["A"]` is
the stripped last body text. -/
theorem spec_C2_amended (t1 t2 : String) (h : ¬ pyStrip t2 = "") :
    parseValues [["", "A", t1], ["", "A", t2]] =
      ⟨["A", "A"], [], [("A", pyStrip t2)]⟩ := by
  show Guides.mk ["A", "A"] []
      [("A", if pyStrip t2 = "" then defaultText else pyStrip t2)] = _
  rw [if_neg h]

/-- Witness for `spec_C2_amended` at the spec's own example rows. -/
theorem spec_C2_witness :
    parseValues [["", "A", "t1"], ["", "A", "t2"]] =
      ⟨["A", "A"], [], [("A", pyStrip "t2")]⟩ :=
  spec_C2_amended "t1" "t2" (by decide)

/-- Claim C4: the empty row sequence parses to the empty tree, and a full
`load_guides` run from the initial state with an empty fetched range
completes (early return at bot.py line 294) with all three structures
still empty. -/
theorem spec_C4 :
    parseValues [] = ⟨[], [], []⟩ ∧
    load_guides pEmptyRows true false true initState =
      ⟨initState, .noData, ⟨0, 1, []⟩⟩ := by
  exact ⟨rfl, by decide⟩

end Bot

namespace Bot

theorem appendChild_size (l : List (String × List String)) (k v : String) :
    ((appendChild l k v).map (fun kv => kv.2.length)).sum =
      ((l.map (fun kv => kv.2.length)).sum) + 1 := by
  induction l with
  | nil => simp [appendChild]
  | cons kv rest ih =>
    obtain ⟨k', vs⟩ := kv
    by_cases hk : k' = k
    · simp [appendChild, hk]
      omega
    · simp [appendChild, hk, ih]
      omega

theorem processRow_size (g : Guides) (row : List String) :
    guideSize (processRow g row) =
      guideSize g + (if 3 ≤ row.length then 1 else 0) := by
  by_cases h : row.length < 3
  · rw [if_neg (by omega)]
    unfold processRow
    rw [if_pos h]
    omega
  · rw [if_pos (by omega)]
    unfold processRow
    rw [if_neg h]
    by_cases hp : sanitize_text (row.getD 0 "") = ""
    · simp only [if_pos hp, guideSize]
      simp
      omega
    · simp only [if_neg hp, guideSize]
      simp [appendChild_size]
      omega

theorem stripHeader_cons (v0 : List String) (rest : List (List String)) :
    stripHeader (v0 :: rest) = if headerCond v0 = true then rest else v0 :: rest :=
  rfl

theorem parseRows_size (g : Guides) (rows : List (List String)) :
    guideSize (parseRows g rows) =
      guideSize g + rows.countP (fun r => decide (3 ≤ r.length)) := by
  induction rows generalizing g with
  | nil => simp [parseRows]
  | cons r rs ih =>
    show guideSize (parseRows (processRow g r) rs) = _
    rw [ih, processRow_size]
    by_cases h : 3 ≤ r.length
    · rw [if_pos h, List.countP_cons_of_pos _ _ (by simpa using h)]
      omega
    · rw [if_neg h, List.countP_cons_of_neg _ _ (by simpa using h)]
      omega

/-- Claim C7: the first row of a non-empty range contributes nothing to
the parse exactly when the header condition of bot.py line 295 holds (its
second cell lowercases to `"button"`, or it has fewer than 3 cells); in
particular a first row `["", "Button", "Text"]` is always stripped. -/
theorem spec_C7 :
    (∀ v0 rest, parseValues (v0 :: rest) = parseRows ⟨[], [], []⟩ rest ↔
      headerCond v0 = true) ∧
    (∀ rest, parseValues (["", "Button", "Text"] :: rest) =
      parseRows ⟨[], [], []⟩ rest) := by
  have hmain : ∀ v0 rest, parseValues (v0 :: rest) = parseRows ⟨[], [], []⟩ rest ↔
      headerCond v0 = true := by
    intro v0 rest
    constructor
    · intro heq
      by_contra hcond
      have hcond' : headerCond v0 = false := by
        cases h : headerCond v0
        · rfl
        · exact absurd h hcond
      have hlen : 3 ≤ v0.length := by
        have : decide (v0.length < 3) = false := by
          have := hcond'
          unfold headerCond at this
          exact (Bool.or_eq_false_iff.mp this).1
        have := of_decide_eq_false this
        omega
      have hpv : parseValues (v0 :: rest) = parseRows (processRow ⟨[], [], []⟩ v0) rest := by
        unfold parseValues
        rw [stripHeader_cons, if_neg (by rw [hcond']; exact Bool.false_ne_true)]
        rfl
      have hsz := congrArg guideSize heq
      rw [hpv] at hsz
      rw [parseRows_size, parseRows_size, processRow_size, if_pos hlen] at hsz
      simp [guideSize] at hsz
    · intro hcond
      unfold parseValues
      rw [stripHeader_cons, if_pos hcond]
  refine ⟨hmain, fun rest => (hmain ["", "Button", "Text"] rest).mpr (by decide)⟩

/-- Witness for `spec_C7`: the spec's header row followed by a data row. -/
theorem spec_C7_witness :
    parseValues [["", "Button", "Text"], ["", "A", "x"]] =
      parseRows ⟨[], [], []⟩ [["", "A", "x"]] :=
  spec_C7.2 [["", "A", "x"]]

end Bot

namespace Bot

/-- Claim C8, counterexample to the "counted for diagnostics" part: the
skip at bot.py lines 303-304 is a bare `continue` with no counter, so two
inputs with different numbers of malformed rows are observationally
identical — no function of the parse output can report the skipped-row
count. -/
theorem spec_C8_counterexample :
    parseValues [["", "A", "x"]] = parseValues [["", "A", "x"], ["short"]] ∧
    ([["", "A", "x"]] : List (List String)).countP
      (fun r => decide (r.length < 3)) = 0 ∧
    ([["", "A", "x"], ["short"]] : List (List String)).countP
      (fun r => decide (r.length < 3)) = 1 := by
  decide

/-- Claim C8, amended: rows with fewer than 3 cells are skipped silently —
they contribute no top-level label, no submenu child and no text entry,
and parsing (a total function) never raises — but they are not counted:
the parse equals the parse of the input with those rows removed. -/
theorem spec_C8_amended :
    (∀ g row, row.length < 3 → processRow g row = g) ∧
    (∀ g rows, parseRows g rows =
      parseRows g (rows.filter (fun r => decide (3 ≤ r.length)))) := by
  have hskip : ∀ (g : Guides) (row : List String), row.length < 3 →
      processRow g row = g := by
    intro g row h
    unfold processRow
    rw [if_pos h]
  refine ⟨hskip, ?_⟩
  intro g rows
  induction rows generalizing g with
  | nil => rfl
  | cons r rs ih =>
    by_cases h : 3 ≤ r.length
    · rw [List.filter_cons_of_pos (by simpa using h)]
      show parseRows (processRow g r) rs = parseRows (processRow g r) _
      exact ih (processRow g r)
    · rw [List.filter_cons_of_neg (by simpa using h)]
      show parseRows (processRow g r) rs = _
      rw [hskip g r (by omega)]
      exact ih g

/-- Witness for `spec_C8_amended`: the 1-cell row `["short"]` is skipped
and the 2-row input parses like the well-formed row alone. -/
theorem spec_C8_witness :
    processRow ⟨[], [], []⟩ ["short"] = ⟨[], [], []⟩ ∧
    parseRows ⟨[], [], []⟩ [["", "A", "x"], ["short"]] =
      parseRows ⟨[], [], []⟩
        ([["", "A", "x"], ["short"]].filter (fun r => decide (3 ≤ r.length))) :=
  ⟨spec_C8_amended.1 _ _ (by decide), spec_C8_amended.2 _ _⟩

end Bot

namespace Bot

theorem load_guides_force (p : Provider) (cf : Bool) (st : BotState) :
    load_guides p true cf true st = attemptLoop p true 4 10 st ⟨0, 0, []⟩ := by
  unfold load_guides
  rw [if_neg (by simp), if_neg (by simp)]

theorem load_guides_noCache (p : Provider) (force : Bool) (st : BotState) :
    load_guides p force false true st = attemptLoop p force 4 10 st ⟨0, 0, []⟩ := by
  unfold load_guides
  rw [if_neg (by simp), if_neg (by simp)]

theorem attemptLoop_succ_mid (p : Provider) (force : Bool) (fuel delay : Nat)
    (st : BotState) (log : RunLog) :
    attemptLoop p force (fuel + 2) delay st log =
      match oneAttempt p force false delay st log with
      | .done st' out log' => ⟨st', out, log'⟩
      | .retry delay' st' log' => attemptLoop p force (fuel + 1) delay' st' log' :=
  rfl

theorem attemptLoop_one (p : Provider) (force : Bool) (delay : Nat)
    (st : BotState) (log : RunLog) :
    attemptLoop p force 1 delay st log =
      match oneAttempt p force true delay st log with
      | .done st' out log' => ⟨st', out, log'⟩
      | .retry _ st' log' => ⟨st', .failed, log'⟩ :=
  rfl

theorem fetchAndParse_err (p : Provider) (isLast : Bool) (delay : Nat)
    (st : BotState) (log : RunLog) (e : PErr)
    (h : p.rows log.rowCalls = .err e) :
    fetchAndParse p isLast delay st log =
      errStep isLast delay st { log with rowCalls := log.rowCalls + 1 } e := by
  simp only [fetchAndParse]
  rw [h]

theorem oneAttempt_force_err (p : Provider) (isLast : Bool) (delay : Nat)
    (st : BotState) (log : RunLog) (e : PErr)
    (h : p.rows log.rowCalls = .err e) :
    oneAttempt p true isLast delay st log =
      errStep isLast delay st { log with rowCalls := log.rowCalls + 1 } e := by
  show fetchAndParse p isLast delay st log = _
  exact fetchAndParse_err p isLast delay st log e h

theorem oneAttempt_version_err (p : Provider) (isLast : Bool) (delay : Nat)
    (st : BotState) (log : RunLog) (e : PErr)
    (h : p.version log.versionCalls = .err e) :
    oneAttempt p false isLast delay st log =
      errStep isLast delay st { log with versionCalls := log.versionCalls + 1 } e := by
  simp only [oneAttempt, Bool.false_eq_true, if_false]
  rw [h]

theorem errStep_transient (isLast : Bool) (delay : Nat) (st : BotState) (log : RunLog) :
    errStep isLast delay st log .transient =
      .retry (min (delay * 2) 100) st { log with sleeps := log.sleeps ++ [delay] } :=
  rfl

theorem errStep_http_mid (delay : Nat) (st : BotState) (log : RunLog)
    (status : Nat) (hs : status ≠ 429) :
    errStep false delay st log (.http status) = .retry delay st log := by
  simp only [errStep]
  rw [if_neg hs]
  simp

theorem errStep_http_last (delay : Nat) (st : BotState) (log : RunLog)
    (status : Nat) (hs : status ≠ 429) :
    errStep true delay st log (.http status) =
      .done (restoreFromCache st) .failed log := by
  simp only [errStep]
  rw [if_neg hs]
  simp

end Bot

namespace Bot

theorem oneAttempt_unchanged (p : Provider) (isLast : Bool) (delay : Nat)
    (st : BotState) (log : RunLog) (t : String)
    (htok : st.last_modified_time = some t)
    (hp : p.version log.versionCalls = .ok (some t)) :
    oneAttempt p false isLast delay st log =
      .done st .unchanged { log with versionCalls := log.versionCalls + 1 } := by
  simp only [oneAttempt, Bool.false_eq_true, if_false]
  rw [hp]
  exact if_pos ⟨by rw [htok]; exact Option.some_ne_none t, htok⟩

theorem fetchAndParse_ok (p : Provider) (isLast : Bool) (delay : Nat)
    (st : BotState) (log : RunLog) (values : List (List String))
    (h : p.rows log.rowCalls = .ok values) (hne : ¬ values = []) :
    fetchAndParse p isLast delay st log =
      .done (updatedState st values) .updated { log with rowCalls := log.rowCalls + 1 } := by
  simp only [fetchAndParse]
  rw [h]
  exact if_neg hne

theorem oneAttempt_force_ok (p : Provider) (isLast : Bool) (delay : Nat)
    (st : BotState) (log : RunLog) (values : List (List String))
    (h : p.rows log.rowCalls = .ok values) (hne : ¬ values = []) :
    oneAttempt p true isLast delay st log =
      .done (updatedState st values) .updated { log with rowCalls := log.rowCalls + 1 } := by
  show fetchAndParse p isLast delay st log = _
  exact fetchAndParse_ok p isLast delay st log values h hne

/-- Claim C3: with `force=false`, a cached version token, an expired TTL
entry (so the provider actually gets consulted) and a provider whose
current token equals the cached one, `load_guides` returns via the
Unchanged short-circuit (bot.py lines 284-285): one metadata call, zero
row-fetch calls, and the resulting state is literally the input state —
in this mutation-free model the analogue of the tree reference staying
the same object.  The TTL-live path (bot.py lines 269-271) also performs
zero row fetches. -/
theorem spec_C3 (p : Provider) (st : BotState) (t : String)
    (htok : st.last_modified_time = some t)
    (hp : p.version 0 = .ok (some t)) :
    load_guides p false false true st = ⟨st, .unchanged, ⟨1, 0, []⟩⟩ := by
  rw [load_guides_noCache, show (4 : Nat) = 2 + 2 from rfl, attemptLoop_succ_mid,
      oneAttempt_unchanged p false 10 st ⟨0, 0, []⟩ t htok hp]

/-- Witness for `spec_C3` at the loaded state `stLoaded` and matching
provider `pSame`. -/
theorem spec_C3_witness :
    load_guides pSame false false true stLoaded = ⟨stLoaded, .unchanged, ⟨1, 0, []⟩⟩ :=
  spec_C3 pSame stLoaded "t0" rfl rfl

/-- Claim C9: the parse installed by a successful `load_guides` run is a
deterministic function of the fetched row sequence alone — any two runs
over the same rows, from arbitrary prior cache states and TTL freshness,
install the same top-level order, the same child order per parent and the
same text map, all equal to `parseValues` of the rows (the loop at bot.py
lines 298-312 resets the three structures before parsing). -/
theorem spec_C9 (p : Provider) (values : List (List String)) (cf : Bool)
    (st : BotState) (h : p.rows 0 = .ok values) (hne : ¬ values = []) :
    (load_guides p true cf true st).state.main_buttons = (parseValues values).main_buttons ∧
    (load_guides p true cf true st).state.submenus = (parseValues values).submenus ∧
    (load_guides p true cf true st).state.texts = (parseValues values).texts ∧
    (load_guides p true cf true st).outcome = .updated := by
  rw [load_guides_force, show (4 : Nat) = 2 + 2 from rfl, attemptLoop_succ_mid,
      oneAttempt_force_ok p false 10 st ⟨0, 0, []⟩ values h hne]
  exact ⟨rfl, rfl, rfl, rfl⟩

/-- Witness for `spec_C9`: two runs from different states over the same
fixed row install the identical parse. -/
theorem spec_C9_witness :
    ((load_guides pRowsA true false true initState).state.main_buttons =
      (parseValues [["", "A", "x"]]).main_buttons ∧
    (load_guides pRowsA true false true initState).state.submenus =
      (parseValues [["", "A", "x"]]).submenus ∧
    (load_guides pRowsA true false true initState).state.texts =
      (parseValues [["", "A", "x"]]).texts ∧
    (load_guides pRowsA true false true initState).outcome = .updated) ∧
    ((load_guides pRowsA true false true stLoaded).state.main_buttons =
      (parseValues [["", "A", "x"]]).main_buttons ∧
    (load_guides pRowsA true false true stLoaded).state.submenus =
      (parseValues [["", "A", "x"]]).submenus ∧
    (load_guides pRowsA true false true stLoaded).state.texts =
      (parseValues [["", "A", "x"]]).texts ∧
    (load_guides pRowsA true false true stLoaded).outcome = .updated) :=
  ⟨spec_C9 pRowsA [["", "A", "x"]] false initState rfl (by decide),
   spec_C9 pRowsA [["", "A", "x"]] false stLoaded rfl (by decide)⟩

end Bot

namespace Bot

/-- Claim C6: against a provider failing with a classified-transient error
on every call, `load_guides` ends in the failed outcome after exactly
`max_retries = 4` provider calls (row fetches under `force=true`, metadata
calls otherwise), with the state untouched, and the sleeps
`[1.0, 2.0, 4.0, 8.0]` s (here in deciseconds) form a non-decreasing
sequence bounded by the 10.0 s cap of bot.py lines 340 and 351. -/
theorem spec_C6 (p : Provider) (st : BotState)
    (hv : ∀ n, p.version n = .err .transient)
    (hr : ∀ n, p.rows n = .err .transient) :
    (∀ cf, load_guides p true cf true st = ⟨st, .failed, ⟨0, 4, [10, 20, 40, 80]⟩⟩) ∧
    load_guides p false false true st = ⟨st, .failed, ⟨4, 0, [10, 20, 40, 80]⟩⟩ ∧
    List.Pairwise (· ≤ ·) [10, 20, 40, 80] ∧ (∀ d ∈ [10, 20, 40, 80], d ≤ 100) := by
  refine ⟨fun cf => ?_, ?_, by decide, by decide⟩
  · rw [load_guides_force, show (4 : Nat) = 2 + 2 from rfl, attemptLoop_succ_mid,
        oneAttempt_force_err p false 10 st ⟨0, 0, []⟩ .transient (hr 0), errStep_transient]
    show attemptLoop p true 3 20 st ⟨0, 1, [10]⟩ = _
    rw [show (3 : Nat) = 1 + 2 from rfl, attemptLoop_succ_mid,
        oneAttempt_force_err p false 20 st ⟨0, 1, [10]⟩ .transient (hr 1), errStep_transient]
    show attemptLoop p true 2 40 st ⟨0, 2, [10, 20]⟩ = _
    rw [show (2 : Nat) = 0 + 2 from rfl, attemptLoop_succ_mid,
        oneAttempt_force_err p false 40 st ⟨0, 2, [10, 20]⟩ .transient (hr 2), errStep_transient]
    show attemptLoop p true 1 80 st ⟨0, 3, [10, 20, 40]⟩ = _
    rw [attemptLoop_one,
        oneAttempt_force_err p true 80 st ⟨0, 3, [10, 20, 40]⟩ .transient (hr 3), errStep_transient]
    rfl
  · rw [load_guides_noCache, show (4 : Nat) = 2 + 2 from rfl, attemptLoop_succ_mid,
        oneAttempt_version_err p false 10 st ⟨0, 0, []⟩ .transient (hv 0), errStep_transient]
    show attemptLoop p false 3 20 st ⟨1, 0, [10]⟩ = _
    rw [show (3 : Nat) = 1 + 2 from rfl, attemptLoop_succ_mid,
        oneAttempt_version_err p false 20 st ⟨1, 0, [10]⟩ .transient (hv 1), errStep_transient]
    show attemptLoop p false 2 40 st ⟨2, 0, [10, 20]⟩ = _
    rw [show (2 : Nat) = 0 + 2 from rfl, attemptLoop_succ_mid,
        oneAttempt_version_err p false 40 st ⟨2, 0, [10, 20]⟩ .transient (hv 2), errStep_transient]
    show attemptLoop p false 1 80 st ⟨3, 0, [10, 20, 40]⟩ = _
    rw [attemptLoop_one,
        oneAttempt_version_err p true 80 st ⟨3, 0, [10, 20, 40]⟩ .transient (hv 3), errStep_transient]
    rfl

/-- Witness for `spec_C6` at the always-transient provider `pTransient`. -/
theorem spec_C6_witness :
    load_guides pTransient true false true stLoaded =
      ⟨stLoaded, .failed, ⟨0, 4, [10, 20, 40, 80]⟩⟩ :=
  (spec_C6 pTransient stLoaded (fun _ => rfl) (fun _ => rfl)).1 false

/-- Claim C5, counterexample: an authorization failure (HTTP 403, not a
429 and not transient) is retried — the run against an always-403
provider makes 4 row-fetch calls, not 1, so the error is not surfaced
immediately after the first failing attempt.  The `else` branch at
bot.py lines 326-334 only stops at `attempt == max_retries`. -/
theorem spec_C5_counterexample :
    (load_guides p403 true false true stLoaded).log.rowCalls = 4 ∧
    ¬ (load_guides p403 true false true stLoaded).log.rowCalls = 1 := by
  decide

/-- Claim C5, amended: non-429 HTTP errors (authorization, not-found,
malformed-request alike) are retried like every other error, only without
any sleep between attempts; after `max_retries = 4` failing calls the run
falls back to the cached data (`restoreFromCache`) and reports failure. -/
theorem spec_C5_amended (p : Provider) (st : BotState) (cf : Bool) (status : Nat)
    (hs : status ≠ 429) (hr : ∀ n, p.rows n = .err (.http status)) :
    load_guides p true cf true st = ⟨restoreFromCache st, .failed, ⟨0, 4, []⟩⟩ := by
  rw [load_guides_force, show (4 : Nat) = 2 + 2 from rfl, attemptLoop_succ_mid,
      oneAttempt_force_err p false 10 st ⟨0, 0, []⟩ _ (hr 0), errStep_http_mid _ _ _ _ hs]
  show attemptLoop p true 3 10 st ⟨0, 1, []⟩ = _
  rw [show (3 : Nat) = 1 + 2 from rfl, attemptLoop_succ_mid,
      oneAttempt_force_err p false 10 st ⟨0, 1, []⟩ _ (hr 1), errStep_http_mid _ _ _ _ hs]
  show attemptLoop p true 2 10 st ⟨0, 2, []⟩ = _
  rw [show (2 : Nat) = 0 + 2 from rfl, attemptLoop_succ_mid,
      oneAttempt_force_err p false 10 st ⟨0, 2, []⟩ _ (hr 2), errStep_http_mid _ _ _ _ hs]
  show attemptLoop p true 1 10 st ⟨0, 3, []⟩ = _
  rw [attemptLoop_one,
      oneAttempt_force_err p true 10 st ⟨0, 3, []⟩ _ (hr 3), errStep_http_last _ _ _ _ hs]

/-- Witness for `spec_C5_amended` at the always-403 provider `p403`. -/
theorem spec_C5_witness :
    load_guides p403 true false true stLoaded =
      ⟨restoreFromCache stLoaded, .failed, ⟨0, 4, []⟩⟩ :=
  spec_C5_amended p403 stLoaded false 403 (by decide) (fun _ => rfl)

end Bot

namespace Bot

theorem treeOf_restore (st : BotState) (hc : st.cacheGuides = some (treeOf st)) :
    treeOf (restoreFromCache st) = treeOf st := by
  unfold restoreFromCache
  rw [hc]
  rfl

theorem errStep_retry (isLast : Bool) (delay : Nat) (st : BotState) (log : RunLog)
    (e : PErr) (d' : Nat) (st' : BotState) (log' : RunLog)
    (h : errStep isLast delay st log e = .retry d' st' log') : st' = st := by
  cases e with
  | http status =>
    simp only [errStep] at h
    split_ifs at h
    · injection h with h1 h2 h3
      exact h2.symm
    · injection h with h1 h2 h3
      exact h2.symm
  | transient =>
    injection h with h1 h2 h3
    exact h2.symm
  | unexpected =>
    simp only [errStep] at h
    split_ifs at h
    injection h with h1 h2 h3
    exact h2.symm

theorem errStep_done (isLast : Bool) (delay : Nat) (st : BotState) (log : RunLog)
    (e : PErr) (st' : BotState) (out : Outcome) (log' : RunLog)
    (h : errStep isLast delay st log e = .done st' out log') :
    st' = restoreFromCache st ∧ out = .failed := by
  cases e with
  | http status =>
    simp only [errStep] at h
    split_ifs at h
    injection h with h1 h2 h3
    exact ⟨h1.symm, h2.symm⟩
  | transient =>
    simp only [errStep] at h
    injection h
  | unexpected =>
    simp only [errStep] at h
    split_ifs at h
    injection h with h1 h2 h3
    exact ⟨h1.symm, h2.symm⟩

theorem fetchAndParse_retry (p : Provider) (isLast : Bool) (delay : Nat)
    (st : BotState) (log : RunLog) (d' : Nat) (st' : BotState) (log' : RunLog)
    (h : fetchAndParse p isLast delay st log = .retry d' st' log') : st' = st := by
  simp only [fetchAndParse] at h
  cases hr : p.rows log.rowCalls with
  | err e =>
    simp only [hr] at h
    exact errStep_retry _ _ _ _ _ _ _ _ h
  | ok values =>
    simp only [hr] at h
    split_ifs at h

theorem fetchAndParse_done_failed (p : Provider) (isLast : Bool) (delay : Nat)
    (st : BotState) (log : RunLog) (st' : BotState) (out : Outcome) (log' : RunLog)
    (h : fetchAndParse p isLast delay st log = .done st' out log')
    (hout : out = .failed) : st' = restoreFromCache st := by
  simp only [fetchAndParse] at h
  cases hr : p.rows log.rowCalls with
  | err e =>
    simp only [hr] at h
    exact (errStep_done _ _ _ _ _ _ _ _ h).1
  | ok values =>
    simp only [hr] at h
    split_ifs at h with hv
    · injection h with h1 h2 h3
      rw [hout] at h2
      exact Outcome.noConfusion h2
    · injection h with h1 h2 h3
      rw [hout] at h2
      exact Outcome.noConfusion h2

theorem oneAttempt_retry_pres (p : Provider) (force isLast : Bool) (delay : Nat)
    (st : BotState) (log : RunLog) (d' : Nat) (st' : BotState) (log' : RunLog)
    (h : oneAttempt p force isLast delay st log = .retry d' st' log') :
    treeOf st' = treeOf st ∧ st'.cacheGuides = st.cacheGuides := by
  cases force with
  | true =>
    have h2 := fetchAndParse_retry p isLast delay st log d' st' log' h
    rw [h2]
    exact ⟨rfl, rfl⟩
  | false =>
    simp only [oneAttempt, Bool.false_eq_true, if_false] at h
    cases hv : p.version log.versionCalls with
    | err e =>
      simp only [hv] at h
      have h2 := errStep_retry _ _ _ _ _ _ _ _ h
      rw [h2]
      exact ⟨rfl, rfl⟩
    | ok tok =>
      simp only [hv] at h
      split_ifs at h with hcond
      have h2 := fetchAndParse_retry p isLast delay _ _ d' st' log' h
      rw [h2]
      exact ⟨rfl, rfl⟩

theorem oneAttempt_done_failed (p : Provider) (force isLast : Bool) (delay : Nat)
    (st : BotState) (log : RunLog) (st' : BotState) (out : Outcome) (log' : RunLog)
    (hc : st.cacheGuides = some (treeOf st))
    (h : oneAttempt p force isLast delay st log = .done st' out log')
    (hout : out = .failed) :
    treeOf st' = treeOf st := by
  cases force with
  | true =>
    have h2 := fetchAndParse_done_failed p isLast delay st log st' out log' h hout
    rw [h2]
    exact treeOf_restore st hc
  | false =>
    simp only [oneAttempt, Bool.false_eq_true, if_false] at h
    cases hv : p.version log.versionCalls with
    | err e =>
      simp only [hv] at h
      have h2 := (errStep_done _ _ _ _ _ _ _ _ h).1
      rw [h2]
      exact treeOf_restore st hc
    | ok tok =>
      simp only [hv] at h
      split_ifs at h with hcond
      · injection h with h1 h2o h3
        rw [hout] at h2o
        exact Outcome.noConfusion h2o
      · have hc2 : ({ st with last_modified_time := tok } : BotState).cacheGuides =
            some (treeOf { st with last_modified_time := tok }) := hc
        have h2 := fetchAndParse_done_failed p isLast delay _ _ st' out log' h hout
        rw [h2]
        exact treeOf_restore _ hc2

theorem attemptLoop_succ (p : Provider) (force : Bool) (fuel delay : Nat)
    (st : BotState) (log : RunLog) :
    attemptLoop p force (fuel + 1) delay st log =
      match oneAttempt p force (fuel == 0) delay st log with
      | .done st' out log' => ⟨st', out, log'⟩
      | .retry delay' st' log' => attemptLoop p force fuel delay' st' log' :=
  rfl

theorem attemptLoop_failed_pres (p : Provider) (force : Bool) :
    ∀ (fuel delay : Nat) (st : BotState) (log : RunLog),
      st.cacheGuides = some (treeOf st) →
      (attemptLoop p force fuel delay st log).outcome = .failed →
      treeOf (attemptLoop p force fuel delay st log).state = treeOf st := by
  intro fuel
  induction fuel with
  | zero => intro delay st log hc hf; rfl
  | succ fuel ih =>
    intro delay st log hc hf
    rw [attemptLoop_succ] at hf ⊢
    cases ho : oneAttempt p force (fuel == 0) delay st log with
    | done st' out log' =>
      rw [ho] at hf
      exact oneAttempt_done_failed p force _ delay st log st' out log' hc ho hf
    | retry d' st' log' =>
      rw [ho] at hf
      obtain ⟨htree, hcache⟩ := oneAttempt_retry_pres p force _ delay st log d' st' log' ho
      have hc' : st'.cacheGuides = some (treeOf st') := by
        rw [hcache, htree]
        exact hc
      have hrec := ih d' st' log' hc' hf
      show treeOf (attemptLoop p force fuel d' st' log').state = treeOf st
      rw [hrec, htree]

end Bot

namespace Bot

/-- Claim C1, counterexample: from the consistent loaded state `stLoaded`
(token `t0`), a run whose first metadata call succeeds with the new token
`t1` and whose remaining calls fail transiently ultimately fails, yet the
state is not the same as before: `last_modified_time` was overwritten at
bot.py line 286 *before* the row fetch failed, so the version token part
of the cache state is not left untouched. -/
theorem spec_C1_counterexample :
    (load_guides pC1 false false true stLoaded).outcome = .failed ∧
    cacheConsistent stLoaded ∧
    ¬ (load_guides pC1 false false true stLoaded).state = stLoaded ∧
    ¬ (load_guides pC1 false false true stLoaded).state.last_modified_time =
      stLoaded.last_modified_time := by
  refine ⟨by decide, rfl, by decide, by decide⟩

/-- Claim C1, amended: whenever a `load_guides` run from a state holding a
previously loaded tree (cache entry equal to the served tree) ends in the
failed outcome, the served tree — `main_buttons`, `submenus`, `texts`,
`main_menu`, i.e. everything a `get_current`-style reader sees — is
exactly as before (untouched or restored from the cache), and the model,
being a total function, never raises; the last-known version token,
however, may have been advanced to the provider's current token by a
version check that succeeded before a later fetch failure. -/
theorem spec_C1_amended (p : Provider) (force cf : Bool) (st : BotState)
    (hc : cacheConsistent st)
    (hf : (load_guides p force cf true st).outcome = .failed) :
    treeOf (load_guides p force cf true st).state = treeOf st := by
  unfold cacheConsistent at hc
  unfold load_guides at hf ⊢
  split_ifs at hf ⊢ with h1
  exact attemptLoop_failed_pres p force 4 10 st ⟨0, 0, []⟩ hc hf

/-- Witness for `spec_C1_amended` at the failing schedule of `pC1`. -/
theorem spec_C1_witness :
    treeOf (load_guides pC1 false false true stLoaded).state = treeOf stLoaded :=
  spec_C1_amended pC1 false false stLoaded rfl (by decide)

end Bot
